import Mathlib

/-!
Verification development for the crimson-cloud-command repository: a shallow
embedding of the autoscaling decision loop, the schedule time-window
evaluator, and the node-backend heartbeat/registration protocol, with
theorems checking the natural-language specification against the code.

Conventions of the embedding:
* Python floats (metric percentages) are embedded as rationals: every claim
  is about order comparisons, never about rounding.
* Fallible external calls (the metrics collector, the cloud provider's pool
  reads and resizes, the database) are embedded as explicit outcome values
  of type Except String.
* The cloud calls a single evaluation cycle can make are gathered in a
  CloudEnv record; the resize commands actually issued are returned
  alongside the decision, so "performs no resize" is the statement that the
  issued-command list is empty.
-/

namespace Autoscaler

/-- Result dictionary returned by scale_up / scale_down in
oracle_sdk_wrapper/oci_scaling.py: action, previous_size, new_size,
success, reason. -/
structure ScaleResult where
  action : String
  previous_size : Option Int
  new_size : Option Int
  success : Bool
  reason : String
deriving Repr, DecidableEq

/-- Decision dictionary returned by evaluate_metrics in
scaling_logic/auto_scaler.py: scaling_event, scaling_reason,
previous_instances, new_instances, success. -/
structure ScalingDecision where
  scaling_event : Option String
  scaling_reason : Option String
  previous_instances : Option Int
  new_instances : Option Int
  success : Bool
deriving Repr, DecidableEq

/-- Outcomes of the external cloud calls one evaluation cycle can make:
the collector's get_metrics() (average CPU and RAM percentages), the pool
size read performed by evaluate_metrics itself
(get_instance_pool(...).data.size), the pool size read performed inside
scale_up / scale_down (get_instance_pool_details(...).size, a separate
read: the pool can be resized out-of-band between the two), and the
update_instance_pool resize call.  An .error value stands for the call
raising an exception with that message. -/
structure CloudEnv where
  metrics : Except String (Rat × Rat)
  evalSize : Except String Int
  opSize : Except String Int
  resize : Int → Except String Unit

/-- Threshold {min, max} percentage pair for one metric. -/
structure MetricRange where
  min : Rat
  max : Rat
deriving Repr, DecidableEq

/-- thresholds dict: CPU and RAM ranges. -/
structure Thresholds where
  cpu : MetricRange
  ram : MetricRange
deriving Repr, DecidableEq

/-- scaling_limits dict: {min, max} instance bounds. -/
structure ScalingLimits where
  min : Int
  max : Int
deriving Repr, DecidableEq

/-- scale_up (oci_scaling.py lines 10-60): read the pool size; at or above
max_limit answer NO_CHANGE (success False); otherwise issue a resize to
size+1 and answer SCALE_UP.  Any exception (the read or the resize
raising) is caught inside scale_up itself and turned into an action
'SCALE_UP' result with success False and reason 'Error: ...'.  The second
component records the resize commands issued. -/
def scale_up (env : CloudEnv) (max_limit : Int) : ScaleResult × List Int :=
  match env.opSize with
  | .error e =>
      (⟨"SCALE_UP", none, none, false, "Error: " ++ e⟩, [])
  | .ok current_size =>
      if current_size ≥ max_limit then
        (⟨"NO_CHANGE", some current_size, some current_size, false,
          "At max limit (" ++ toString max_limit ++ ")"⟩, [])
      else
        let new_size := current_size + 1
        match env.resize new_size with
        | .error e =>
            (⟨"SCALE_UP", none, none, false, "Error: " ++ e⟩, [new_size])
        | .ok _ =>
            (⟨"SCALE_UP", some current_size, some new_size, true,
              "Scaled up successfully"⟩, [new_size])

/-- scale_down (oci_scaling.py lines 62-112): read the pool size; at or
below min_limit answer NO_CHANGE (success False); otherwise issue a resize
to size-1 and answer SCALE_DOWN with the caller-supplied reason.
Exceptions are caught inside scale_down itself. -/
def scale_down (env : CloudEnv) (min_limit : Int) (reason : String) :
    ScaleResult × List Int :=
  match env.opSize with
  | .error e =>
      (⟨"SCALE_DOWN", none, none, false, "Error: " ++ e⟩, [])
  | .ok current_size =>
      if current_size ≤ min_limit then
        (⟨"NO_CHANGE", some current_size, some current_size, false,
          "At min limit (" ++ toString min_limit ++ ")"⟩, [])
      else
        let new_size := current_size - 1
        match env.resize new_size with
        | .error e =>
            (⟨"SCALE_DOWN", none, none, false, "Error: " ++ e⟩, [new_size])
        | .ok _ =>
            (⟨"SCALE_DOWN", some current_size, some new_size, true, reason⟩, [new_size])

/-- The decision dictionary evaluate_metrics builds from a scale_up /
scale_down result: scaling_event is the action unless it is 'NO_CHANGE'
(then None), scaling_reason is the reason computed at the call site (not
the result's own reason), previous/new instances and success are copied
from the result. -/
def decisionOfResult (result : ScaleResult) (reason : String) : ScalingDecision :=
  { scaling_event := if result.action = "NO_CHANGE" then none else some result.action
    scaling_reason := some reason
    previous_instances := result.previous_size
    new_instances := result.new_size
    success := result.success }

/-- The decision returned by the final except-branch of evaluate_metrics
when an uncaught exception with message e escapes the body. -/
def errorDecision (e : String) : ScalingDecision :=
  { scaling_event := none
    scaling_reason := some ("Error during evaluation: " ++ e)
    previous_instances := none
    new_instances := none
    success := false }

/-- evaluate_metrics (scaling_logic/auto_scaler.py lines 17-172), the
scaling decision engine: invalid metrics (cpu < 0 or ram < 0) and the
all-zero no-data sentinel short-circuit with no action; then the pool size
is read; below-minimum forces scale_up and above-maximum forces
scale_down; then a high threshold breach scales up, a low threshold breach
scales down unless the scheduler-active callback answers true (then the
scale-down is suppressed with success True); otherwise no change.  The
second component lists the resize commands issued during the cycle. -/
def evaluate_metrics (env : CloudEnv) (thresholds : Thresholds)
    (scaling_limits : ScalingLimits) (scheduler_active_callback : Bool) :
    ScalingDecision × List Int :=
  match env.metrics with
  | .error e => (errorDecision e, [])
  | .ok (avg_cpu, avg_ram) =>
      if avg_cpu < 0 ∨ avg_ram < 0 then
        ({ scaling_event := none
           scaling_reason := some ("Invalid metrics: CPU=" ++ toString avg_cpu
             ++ ", RAM=" ++ toString avg_ram)
           previous_instances := none
           new_instances := none
           success := false }, [])
      else if avg_cpu = 0 ∧ avg_ram = 0 then
        ({ scaling_event := none
           scaling_reason := some "No valid metric data available"
           previous_instances := none
           new_instances := none
           success := false }, [])
      else
        match env.evalSize with
        | .error e => (errorDecision e, [])
        | .ok current_size =>
            if current_size < scaling_limits.min then
              let r := scale_up env scaling_limits.max
              (decisionOfResult r.1
                ("Pool size (" ++ toString current_size
                  ++ ") below minimum limit (" ++ toString scaling_limits.min ++ ")"),
               r.2)
            else if current_size > scaling_limits.max then
              let reason := "Current pool size (" ++ toString current_size
                ++ ") exceeds the maximum limit (" ++ toString scaling_limits.max ++ ")."
              let r := scale_down env scaling_limits.min reason
              (decisionOfResult r.1 reason, r.2)
            else if avg_cpu > thresholds.cpu.max ∨ avg_ram > thresholds.ram.max then
              let reason := "CPU or RAM exceeded thresholds. CPU "
                ++ toString avg_cpu ++ "% (max " ++ toString thresholds.cpu.max
                ++ "%), RAM " ++ toString avg_ram ++ "% (max "
                ++ toString thresholds.ram.max ++ "%)"
              let r := scale_up env scaling_limits.max
              (decisionOfResult r.1 reason, r.2)
            else if avg_cpu < thresholds.cpu.min ∨ avg_ram < thresholds.ram.min then
              if scheduler_active_callback then
                ({ scaling_event := none
                   scaling_reason := some "Scaling down blocked by active scheduler"
                   previous_instances := some current_size
                   new_instances := some current_size
                   success := true }, [])
              else
                let reason := "CPU or RAM below thresholds. CPU "
                  ++ toString avg_cpu ++ "% (min " ++ toString thresholds.cpu.min
                  ++ "%), RAM " ++ toString avg_ram ++ "% (min "
                  ++ toString thresholds.ram.min ++ "%)"
                let r := scale_down env scaling_limits.min reason
                (decisionOfResult r.1 reason, r.2)
            else
              ({ scaling_event := none
                 scaling_reason := none
                 previous_instances := some current_size
                 new_instances := some current_size
                 success := true }, [])

/-- A concrete evaluation cycle with healthy metrics, pool size 3 and a
working provider, used to witness C5. -/
def C5env : CloudEnv :=
  { metrics := .ok (85, 50), evalSize := .ok 3, opSize := .ok 3,
    resize := fun _ => .ok () }

/-- An evaluation cycle at pool size 1 whose collector returns the
invalid metric pair (-1, 50). -/
def C1env : CloudEnv :=
  { metrics := .ok (-1, 50), evalSize := .ok 1, opSize := .ok 1,
    resize := fun _ => .ok () }

/-- A healthy evaluation cycle at pool size 1 used to witness C1:
ordinary in-range metrics. -/
def C1wEnv : CloudEnv :=
  { metrics := .ok (50, 50), evalSize := .ok 1, opSize := .ok 1,
    resize := fun _ => .ok () }

/-- An evaluation cycle where the low-threshold breach (cpu 10 below min
20) coincides with a high-threshold breach (ram 95 above max 80). -/
def C4env : CloudEnv :=
  { metrics := .ok (10, 95), evalSize := .ok 5, opSize := .ok 5,
    resize := fun _ => .ok () }

/-- A low-utilisation cycle (cpu 10) at size 3 within limits used to
witness C4. -/
def C4wEnv : CloudEnv :=
  { metrics := .ok (10, 50), evalSize := .ok 3, opSize := .ok 3,
    resize := fun _ => .ok () }

/-- An evaluation cycle whose provider resize call fails with message
"instance pool is being modified". -/
def C7env : CloudEnv :=
  { metrics := .ok (95, 50), evalSize := .ok 5, opSize := .ok 5,
    resize := fun _ => .error "instance pool is being modified" }

/-- An evaluation cycle whose metrics collector raises
"connection timeout", used to witness C7. -/
def C7wEnv : CloudEnv :=
  { metrics := .error "connection timeout", evalSize := .ok 3, opSize := .ok 3,
    resize := fun _ => .ok () }

/-- A low-utilisation cycle (cpu 10) whose resize call fails with
"resize rejected", used to witness the scale_down failure case of C7. -/
def C7wEnv2 : CloudEnv :=
  { metrics := .ok (10, 50), evalSize := .ok 3, opSize := .ok 3,
    resize := fun _ => .error "resize rejected" }

/-- A provider call inside scale_up raises with message e: either its own
pool-size read, or - after a successful read below the max limit - the
resize call. -/
def scale_up_raises (env : CloudEnv) (maxL : Int) (e : String) : Prop :=
  env.opSize = .error e
    ∨ (∃ t, env.opSize = .ok t ∧ t < maxL ∧ env.resize (t + 1) = .error e)

/-- A provider call inside scale_down raises with message e: either its
own pool-size read, or - after a successful read above the min limit -
the resize call. -/
def scale_down_raises (env : CloudEnv) (minL : Int) (e : String) : Prop :=
  env.opSize = .error e
    ∨ (∃ t, env.opSize = .ok t ∧ t > minL ∧ env.resize (t - 1) = .error e)

end Autoscaler

namespace TimeUtils

/-- A wall-clock time of day at second resolution, embedding the
datetime.time values used by is_time_in_range
(scheduler/utils/time_utils.py).  A value parsed from "HH:MM" carries
second 0; a timestamp's time-of-day may carry seconds. -/
structure Time where
  hour : Nat
  minute : Nat
  second : Nat
deriving Repr, DecidableEq

/-- Python's ordering on datetime.time values: lexicographic on
(hour, minute, second). -/
def Time.leb (a b : Time) : Bool :=
  decide (a.hour < b.hour) ||
    (decide (a.hour = b.hour) &&
      (decide (a.minute < b.minute) ||
        (decide (a.minute = b.minute) && decide (a.second ≤ b.second))))

/-- The pieces of a character list between its colons (the list-level
counterpart of splitting a string on ":"). -/
def splitOnColon : List Char → List (List Char)
  | [] => [[]]
  | c :: rest =>
      let r := splitOnColon rest
      if c = ':' then [] :: r
      else
        match r with
        | [] => [[c]]
        | h :: t => (c :: h) :: t

/-- The number a list of decimal digit characters denotes. -/
def digitsToNat (l : List Char) : Nat :=
  l.foldl (fun acc c => acc * 10 + (c.toNat - 48)) 0

/-- datetime.strptime(s, '%H:%M').time(): one or two digits of hour
(at most 23), a colon, one or two digits of minute (at most 59); any
other string raises ValueError, embedded as none. -/
def parseHHMM (s : String) : Option Time :=
  match splitOnColon s.data with
  | [h, m] =>
      if 1 ≤ h.length ∧ h.length ≤ 2 ∧ 1 ≤ m.length ∧ m.length ≤ 2
          ∧ h.all Char.isDigit ∧ m.all Char.isDigit then
        let hn := digitsToNat h
        let mn := digitsToNat m
        if hn ≤ 23 ∧ mn ≤ 59 then some ⟨hn, mn, 0⟩ else none
      else none
  | _ => none

/-- is_time_in_range (scheduler/utils/time_utils.py lines 5-33): parse
both "HH:MM" strings; a non-overnight range (start at or before end) is
inclusive on both ends, an overnight range (start after end) holds at or
after start or at or before end; a ValueError from parsing is caught and
answered with False. -/
def is_time_in_range (start_time_str end_time_str : String)
    (current_time : Time) : Bool :=
  match parseHHMM start_time_str, parseHHMM end_time_str with
  | some start_time, some end_time =>
      if start_time.leb end_time then
        start_time.leb current_time && current_time.leb end_time
      else
        start_time.leb current_time || current_time.leb end_time
  | _, _ => false

end TimeUtils

namespace Backend

/-- NodeStatus enum (backend/models.py). -/
inductive NodeStatus
  | ACTIVE
  | INACTIVE
  | ERROR
  | OFFLINE
deriving Repr, DecidableEq

/-- The .value string of a NodeStatus member. -/
def NodeStatus.value : NodeStatus → String
  | .ACTIVE => "ACTIVE"
  | .INACTIVE => "INACTIVE"
  | .ERROR => "ERROR"
  | .OFFLINE => "OFFLINE"

/-- A row of the nodes table (backend/models.py Node). -/
structure Node where
  id : Nat
  name : String
  region : String
  ip_address : Option String
  description : Option String
  status : NodeStatus
  api_key_hash : Option String
  last_heartbeat : Option Nat
deriving Repr, DecidableEq

/-- A row of the node_configurations table (backend/models.py
NodeConfiguration). -/
structure NodeConfiguration where
  node_id : Nat
  yaml_config : String
  config_hash : String
  is_active : Bool
deriving Repr, DecidableEq

/-- PoolAnalyticsData payload item of a heartbeat (backend/schemas.py). -/
structure PoolAnalyticsData where
  oracle_pool_id : String
  current_instances : Int
  active_instances : Int
  avg_cpu_utilization : Rat
  avg_memory_utilization : Rat
  max_cpu_utilization : Option Rat
  max_memory_utilization : Option Rat
  pool_status : String
  is_active : Bool
  scaling_event : Option String
  scaling_reason : Option String
deriving Repr, DecidableEq

/-- NodeHeartbeatData payload (backend/schemas.py); the metrics_data JSON
object is kept as an opaque string.  A missing pool_analytics list and an
empty one are both falsy in the processing code and are embedded as []. -/
structure NodeHeartbeatData where
  status : String
  config_hash : Option String
  error_message : Option String
  pool_analytics : List PoolAnalyticsData
  metrics_data : Option String
deriving Repr, DecidableEq

/-- A row of the node_heartbeats table stored by process_heartbeat. -/
structure NodeHeartbeatRecord where
  node_id : Nat
  config_hash : Option String
  status : String
  error_message : Option String
  metrics_data : Option String
deriving Repr, DecidableEq

/-- A row of the node_lifecycle_log table
(NodeLifecycleService.log_event). -/
structure NodeLifecycleLog where
  node_id : Nat
  event_type : String
  previous_status : Option String
  new_status : String
  reason : Option String
  triggered_by : Option String
deriving Repr, DecidableEq

/-- The backend database state the heartbeat and configuration services
read and write.  Analytics rows are tagged with the node id they were
stored for. -/
structure Db where
  nodes : List Node
  configs : List NodeConfiguration
  heartbeats : List NodeHeartbeatRecord
  analytics : List (Nat × PoolAnalyticsData)
  lifecycle_log : List NodeLifecycleLog
deriving Repr, DecidableEq

/-- db.query(Node).filter(Node.id == node_id).first(). -/
def findNode (db : Db) (node_id : Nat) : Option Node :=
  db.nodes.find? (fun n => n.id == node_id)

/-- NodeConfigurationService.get_node_config (backend/services.py lines
450-454): the first stored configuration for the node that is active. -/
def get_node_config (db : Db) (node_id : Nat) : Option NodeConfiguration :=
  db.configs.find? (fun c => c.node_id == node_id && c.is_active)

/-- Modelled abstraction of AnalyticsService.process_pool_analytics
(backend/services.py lines 652 ff.): it stores one analytics row per
reported pool, tagged with the node id.  The pool-table creation and
scaling-limit synchronisation it also performs touch only the pools
table - never nodes, configurations, heartbeats or the lifecycle log -
and are not modelled. -/
def process_pool_analytics (db : Db) (node_id : Nat)
    (rows : List PoolAnalyticsData) : Db :=
  { db with analytics := db.analytics ++ rows.map (fun r => (node_id, r)) }

/-- Response dictionary of HeartbeatService.process_heartbeat. -/
structure HeartbeatResponse where
  status : String
  config_update_needed : Bool
  current_config_hash : Option String
  new_config : Option String
deriving Repr, DecidableEq

/-- HeartbeatService.process_heartbeat (backend/services.py lines
541-607): look the node up (a missing node raises ValueError, embedded as
.error); set last_heartbeat to now and the status to ACTIVE, logging a
CAME_ONLINE lifecycle event when the previous status was OFFLINE; store a
heartbeat row; store the reported pool analytics; then compare the hash
of the stored active configuration, when one exists, against the reported
hash to decide config_update_needed, attaching the stored YAML when an
update is needed.  The body after the not-found guard is split out as
heartbeatBody purely so its parts can be reasoned about without
unwrapping the ValueError case. -/
def heartbeatBody (db : Db) (now : Nat) (node_id : Nat)
    (hb : NodeHeartbeatData) (node : Node) : Db × HeartbeatResponse :=
  let previous_status := node.status.value
      let node' : Node :=
        { node with status := NodeStatus.ACTIVE, last_heartbeat := some now }
      let db1 : Db :=
        { db with nodes := db.nodes.map (fun n => if n.id == node_id then node' else n) }
      let db2 : Db :=
        if node.status = NodeStatus.OFFLINE then
          { db1 with lifecycle_log := db1.lifecycle_log ++
              [⟨node_id, "CAME_ONLINE", some previous_status, "ACTIVE",
                some "Node sent heartbeat after being offline", some "heartbeat"⟩] }
        else db1
      let db3 : Db :=
        { db2 with heartbeats := db2.heartbeats ++
            [⟨node_id, hb.config_hash, hb.status, hb.error_message, hb.metrics_data⟩] }
      let db4 : Db :=
        if hb.pool_analytics.isEmpty then db3
        else process_pool_analytics db3 node_id hb.pool_analytics
      let current_config := get_node_config db4 node_id
      let config_update_needed : Bool :=
        match current_config with
        | some c => some c.config_hash != hb.config_hash
        | none => false
      let response : HeartbeatResponse :=
        { status := "success"
          config_update_needed := config_update_needed
          current_config_hash := current_config.map (fun c => c.config_hash)
          new_config :=
            if config_update_needed then current_config.map (fun c => c.yaml_config)
            else none }
      (db4, response)

/-- HeartbeatService.process_heartbeat entry: look the node up (a missing
node raises ValueError, embedded as .error), then run the body. -/
def process_heartbeat (db : Db) (now : Nat) (node_id : Nat)
    (hb : NodeHeartbeatData) : Except String (Db × HeartbeatResponse) :=
  match findNode db node_id with
  | none => .error ("Node " ++ toString node_id ++ " not found")
  | some node => .ok (heartbeatBody db now node_id hb node)

/-- An HTTPException raised by an endpoint. -/
structure HttpError where
  status_code : Nat
  detail : String
deriving Repr, DecidableEq

/-- POST /nodes/(node_id)/heartbeat (backend/main.py lines 686-701):
authenticated by API key; a path node id differing from the
authenticated node's id is rejected with 403 before anything else runs; a
ValueError from the service becomes 404. -/
def node_heartbeat (authNode : Node) (node_id : Nat) (hb : NodeHeartbeatData)
    (db : Db) (now : Nat) : Except HttpError (Db × HeartbeatResponse) :=
  if authNode.id ≠ node_id then .error ⟨403, "Node ID mismatch"⟩
  else
    match process_heartbeat db now node_id hb with
    | .error msg => .error ⟨404, msg⟩
    | .ok r => .ok r

/-- NodeConfigurationResponse payload (backend/schemas.py), without the
bookkeeping id/timestamp columns. -/
structure NodeConfigurationResponse where
  node_id : Nat
  yaml_config : String
  config_hash : String
  is_active : Bool
deriving Repr, DecidableEq

/-- GET /nodes/(node_id)/config/fetch (backend/main.py lines 636-662):
authenticated by API key; a mismatched path node id is rejected with 403;
a node with no stored active configuration receives the sentinel empty
configuration rather than an error. -/
def fetch_node_config (authNode : Node) (node_id : Nat) (db : Db) :
    Except HttpError NodeConfigurationResponse :=
  if authNode.id ≠ node_id then .error ⟨403, "Node ID mismatch"⟩
  else
    match get_node_config db node_id with
    | none => .ok ⟨node_id, "# No configuration set yet\n", "", false⟩
    | some c => .ok ⟨c.node_id, c.yaml_config, c.config_hash, c.is_active⟩

/-- NodeConfigurationService.update_node_config (backend/services.py
lines 457-474): deactivate every stored configuration of the node, then
append a fresh active one whose hash is the sha256 hex digest of the YAML
text (the digest function is passed in as sha256hex). -/
def update_node_config (db : Db) (node_id : Nat) (yaml_config : String)
    (sha256hex : String → String) : Db × NodeConfiguration :=
  let deactivated := db.configs.map
    (fun c => if c.node_id == node_id then { c with is_active := false } else c)
  let newConfig : NodeConfiguration :=
    ⟨node_id, yaml_config, sha256hex yaml_config, true⟩
  ({ db with configs := deactivated ++ [newConfig] }, newConfig)

/-- PUT /nodes/(node_id)/config/push (backend/main.py lines 665-684):
authenticated by API key; a mismatched path node id is rejected with 403
before the configuration is stored. -/
def push_node_config (authNode : Node) (node_id : Nat) (yaml_config : String)
    (sha256hex : String → String) (db : Db) :
    Except HttpError (Db × NodeConfiguration) :=
  if authNode.id ≠ node_id then .error ⟨403, "Node ID mismatch"⟩
  else .ok (update_node_config db node_id yaml_config sha256hex)

/-- NodeRegister request payload (backend/schemas.py). -/
structure NodeRegister where
  name : String
  region : String
  ip_address : Option String
  description : Option String
deriving Repr, DecidableEq

/-- NodeRegisterResponse payload (backend/schemas.py). -/
structure NodeRegisterResponse where
  node_id : Nat
  api_key : String
  name : String
  region : String
deriving Repr, DecidableEq

/-- The autoincrement primary key the database assigns to the next nodes
row: one more than the largest id in use. -/
def nextId (db : Db) : Nat := (db.nodes.map Node.id).foldr Nat.max 0 + 1

/-- NodeService.register_node (backend/services.py lines 377-402):
unconditionally insert a new nodes row - INACTIVE status, the hash of the
freshly generated API key (the key generation and its sha256 digest are
passed in as api_key and sha256hex) - and answer with the new id and the
plain key.  No lookup by name or region happens anywhere in it. -/
def register_node (db : Db) (node : NodeRegister) (api_key : String)
    (sha256hex : String → String) : Db × NodeRegisterResponse :=
  let newNode : Node :=
    { id := nextId db
      name := node.name
      region := node.region
      ip_address := node.ip_address
      description := node.description
      status := NodeStatus.INACTIVE
      api_key_hash := some (sha256hex api_key)
      last_heartbeat := none }
  ({ db with nodes := db.nodes ++ [newNode] },
   ⟨newNode.id, api_key, newNode.name, newNode.region⟩)

/-- A registered node row used by the concrete heartbeat scenarios. -/
def node1 : Node :=
  { id := 1, name := "node-a", region := "eu-frankfurt-1", ip_address := none,
    description := none, status := NodeStatus.ACTIVE, api_key_hash := some "kh",
    last_heartbeat := none }

/-- Database with one ACTIVE node and no stored configuration. -/
def C2db : Db :=
  { nodes := [node1], configs := [], heartbeats := [], analytics := [],
    lifecycle_log := [] }

/-- A heartbeat whose payload status is "error". -/
def C2hb : NodeHeartbeatData :=
  { status := "error", config_hash := none, error_message := some "pool unreachable",
    pool_analytics := [], metrics_data := none }

/-- The database state after processing the status-"error" heartbeat. -/
def C2dbAfter : Db :=
  { nodes := [{ node1 with status := NodeStatus.ACTIVE, last_heartbeat := some 100 }],
    configs := [],
    heartbeats := [⟨1, none, "error", some "pool unreachable", none⟩],
    analytics := [], lifecycle_log := [] }

/-- The response to the status-"error" heartbeat. -/
def C2resp : HeartbeatResponse :=
  { status := "success", config_update_needed := false,
    current_config_hash := none, new_config := none }

/-- Database with one node and one stored active configuration whose hash
is "abc". -/
def C3db : Db :=
  { nodes := [node1],
    configs := [{ node_id := 1, yaml_config := "pools: []", config_hash := "abc",
                  is_active := true }],
    heartbeats := [], analytics := [], lifecycle_log := [] }

/-- A heartbeat reporting the stale configuration hash "old". -/
def C3hb : NodeHeartbeatData :=
  { status := "active", config_hash := some "old", error_message := none,
    pool_analytics := [], metrics_data := none }

/-- The database state after processing the stale-hash heartbeat. -/
def C3dbAfter : Db :=
  { nodes := [{ node1 with status := NodeStatus.ACTIVE, last_heartbeat := some 5 }],
    configs := [{ node_id := 1, yaml_config := "pools: []", config_hash := "abc",
                  is_active := true }],
    heartbeats := [⟨1, some "old", "active", none, none⟩],
    analytics := [], lifecycle_log := [] }

/-- The response to the stale-hash heartbeat: an update is needed and the
stored YAML is attached. -/
def C3resp : HeartbeatResponse :=
  { status := "success", config_update_needed := true,
    current_config_hash := some "abc", new_config := some "pools: []" }

/-- A node authenticated by its API key, with id 2, used for the node-id
mismatch scenario. -/
def authNode2 : Node :=
  { id := 2, name := "node-b", region := "eu-frankfurt-1", ip_address := none,
    description := none, status := NodeStatus.ACTIVE, api_key_hash := some "kh2",
    last_heartbeat := none }

/-- A registration request, deliberately reusing the name and region of
the already-registered node1. -/
def C10req : NodeRegister :=
  { name := "node-a", region := "eu-frankfurt-1", ip_address := some "10.0.0.5",
    description := none }

/-- A concrete stand-in for the sha256 hex digest in closed scenarios
(the digest function is a parameter of the embedding; no claim depends on
its values). -/
def testHash : String → String := fun s => "h:" ++ s

end Backend

namespace NodeSide

/-- Outcome of writing the configuration file, embedding Python's
open(path, 'w') followed by f.write: ok writes the full content;
openError means open itself raised and the file is untouched; writeError
means open succeeded (truncating the file) but the write raised after
putting `written` on disk. -/
inductive WriteOutcome
  | ok
  | openError (msg : String)
  | writeError (msg : String) (written : String)

/-- The node-process state update_configuration touches: the on-disk
config.yaml content (none: no file yet) and the in-memory
self.config_hash. -/
structure LocalState where
  config_file : Option String
  config_hash : Option String
deriving Repr, DecidableEq

/-- AutoscalerNode.update_configuration (autoscaler node main.py lines
203-217): write the received YAML string to the config file, then set
self.config_hash to its sha256 hex digest; any exception is caught,
logged and turned into a False return, skipping the hash assignment.  No
YAML parsing or validation happens here. -/
def update_configuration (yaml_config : String) (w : WriteOutcome)
    (sha256hex : String → String) (st : LocalState) : LocalState × Bool :=
  match w with
  | .ok =>
      ({ config_file := some yaml_config
         config_hash := some (sha256hex yaml_config) }, true)
  | .openError _ => (st, false)
  | .writeError _ written => ({ st with config_file := some written }, false)

/-- Python truthiness of the stored node_id credential: None and 0 are
falsy. -/
def nodeIdTruthy : Option Int → Bool
  | none => false
  | some n => n != 0

/-- Python truthiness of the stored api_key credential: None and the
empty string are falsy. -/
def apiKeyTruthy : Option String → Bool
  | none => false
  | some s => s != ""

/-- AutoscalerNode.auto_register (autoscaler node main.py lines 77-116):
with both credentials already present it returns True immediately, making
no registration call; otherwise it calls the backend's register endpoint
(outcome reg: the node_id/api_key pair on success, none on failure) and
reports whether that succeeded.  First component: whether a network
registration call was made. -/
def auto_register (node_id : Option Int) (api_key : Option String)
    (reg : Option (Nat × String)) : Bool × Bool :=
  if nodeIdTruthy node_id && apiKeyTruthy api_key then (false, true)
  else
    match reg with
    | some _ => (true, true)
    | none => (true, false)

/-- A local node state holding a previously applied configuration. -/
def C8st : LocalState :=
  { config_file := some "pools: []", config_hash := some "h:pools: []" }

/-- A configuration string that is not valid YAML. -/
def C8bad : String := "pools: [unclosed"

/-- A concrete stand-in for the sha256 hex digest on the node side. -/
def demoHash : String → String := fun s => "h:" ++ s

end NodeSide

/-- Whether the string needle occurs contiguously inside the string hay. -/
def containsSubstr (hay needle : String) : Bool :=
  decide (needle.data <:+: hay.data)

namespace Autoscaler

/-- previous_size and new_size of a scale_up result differ by at most one:
either the at-max or error result repeats or drops the size, or the pool
grows by exactly one. -/
theorem scale_up_bound (env : CloudEnv) (maxL : Int) (p n : Int)
    (hp : (scale_up env maxL).1.previous_size = some p)
    (hn : (scale_up env maxL).1.new_size = some n) : n = p ∨ n = p + 1 := by
  unfold scale_up at hp hn
  cases h : env.opSize with
  | error e => simp [h] at hp
  | ok s =>
      simp only [h] at hp hn
      by_cases hge : s ≥ maxL
      · rw [if_pos hge] at hp hn
        simp at hp hn
        omega
      · rw [if_neg hge] at hp hn
        cases hr : env.resize (s + 1) with
        | error e => simp [hr] at hp
        | ok u =>
            simp only [hr] at hp hn
            simp at hp hn
            omega

/-- previous_size and new_size of a scale_down result differ by at most
one. -/
theorem scale_down_bound (env : CloudEnv) (minL : Int) (reason : String) (p n : Int)
    (hp : (scale_down env minL reason).1.previous_size = some p)
    (hn : (scale_down env minL reason).1.new_size = some n) : n = p ∨ n = p - 1 := by
  unfold scale_down at hp hn
  cases h : env.opSize with
  | error e => simp [h] at hp
  | ok s =>
      simp only [h] at hp hn
      by_cases hle : s ≤ minL
      · rw [if_pos hle] at hp hn
        simp at hp hn
        omega
      · rw [if_neg hle] at hp hn
        cases hr : env.resize (s - 1) with
        | error e => simp [hr] at hp
        | ok u =>
            simp only [hr] at hp hn
            simp at hp hn
            omega

/-- C5: on every evaluation whose decision carries both
previous_instances and new_instances, they differ by at most one
instance: scale_up adds exactly one and scale_down removes exactly one
per invocation. -/
theorem C5_single_step_damping (env : CloudEnv) (th : Thresholds)
    (lim : ScalingLimits) (sched : Bool) (p n : Int)
    (hp : (evaluate_metrics env th lim sched).1.previous_instances = some p)
    (hn : (evaluate_metrics env th lim sched).1.new_instances = some n) :
    (n - p).natAbs ≤ 1 := by
  unfold evaluate_metrics at hp hn
  cases hm : env.metrics with
  | error e => simp [hm, errorDecision] at hp
  | ok pr =>
      obtain ⟨cpu, ram⟩ := pr
      simp only [hm] at hp hn
      by_cases h1 : cpu < 0 ∨ ram < 0
      · rw [if_pos h1] at hp; simp at hp
      · rw [if_neg h1] at hp hn
        by_cases h2 : cpu = 0 ∧ ram = 0
        · rw [if_pos h2] at hp; simp at hp
        · rw [if_neg h2] at hp hn
          cases hs : env.evalSize with
          | error e => simp [hs, errorDecision] at hp
          | ok s =>
              simp only [hs] at hp hn
              by_cases h3 : s < lim.min
              · rw [if_pos h3] at hp hn
                simp only [decisionOfResult] at hp hn
                rcases scale_up_bound env lim.max p n hp hn with h | h <;> omega
              · rw [if_neg h3] at hp hn
                by_cases h4 : s > lim.max
                · rw [if_pos h4] at hp hn
                  simp only [decisionOfResult] at hp hn
                  rcases scale_down_bound env lim.min _ p n hp hn with h | h <;> omega
                · rw [if_neg h4] at hp hn
                  by_cases h5 : cpu > th.cpu.max ∨ ram > th.ram.max
                  · rw [if_pos h5] at hp hn
                    simp only [decisionOfResult] at hp hn
                    rcases scale_up_bound env lim.max p n hp hn with h | h <;> omega
                  · rw [if_neg h5] at hp hn
                    by_cases h6 : cpu < th.cpu.min ∨ ram < th.ram.min
                    · rw [if_pos h6] at hp hn
                      cases sched with
                      | true =>
                          simp at hp hn
                          omega
                      | false =>
                          simp only [Bool.false_eq_true, if_false,
                            decisionOfResult] at hp hn
                          rcases scale_down_bound env lim.min _ p n hp hn with h | h <;> omega
                    · rw [if_neg h6] at hp hn
                      simp at hp hn
                      omega


/-- C5 witness: the damping theorem applied at a concrete scale-up cycle
(size 3 to 4). -/
theorem C5_single_step_damping_witness : ((4 : Int) - 3).natAbs ≤ 1 :=
  C5_single_step_damping C5env ⟨⟨20, 70⟩, ⟨20, 80⟩⟩ ⟨2, 8⟩ false 3 4 rfl rfl


/-- C1 counterexample: with current size 1 and limits min 2 / max 10, the
metric pair (-1, 50) does NOT yield SCALE_UP - the invalid-metrics check
runs before the below-minimum bound correction, so the claim's "for any
metrics values" fails. -/
theorem C1_counterexample :
    (evaluate_metrics C1env ⟨⟨20, 80⟩, ⟨20, 80⟩⟩ ⟨2, 10⟩ false).1.scaling_event
        ≠ some "SCALE_UP"
      ∧ (evaluate_metrics C1env ⟨⟨20, 80⟩, ⟨20, 80⟩⟩ ⟨2, 10⟩ false).1.scaling_event
        = none := by
  constructor <;> decide

/-- C1 (amended): with current size 1 and scaling limits min 2 / max 10,
any VALID, non-zero metric pair (cpu and ram at least 0 and not both 0)
yields a SCALE_UP decision - the bound correction beats all threshold
comparisons; invalid or all-zero metrics are rejected first and yield no
scaling event. -/
theorem C1_below_min_forces_scale_up (env : CloudEnv) (th : Thresholds)
    (sched : Bool) (cpu ram : Rat)
    (hm : env.metrics = .ok (cpu, ram)) (hc : 0 ≤ cpu) (hr : 0 ≤ ram)
    (hnz : ¬(cpu = 0 ∧ ram = 0))
    (hsz : env.evalSize = .ok 1) (hop : env.opSize = .ok 1) :
    (evaluate_metrics env th ⟨2, 10⟩ sched).1.scaling_event = some "SCALE_UP" := by
  unfold evaluate_metrics
  simp only [hm]
  rw [if_neg (by push_neg; exact ⟨hc, hr⟩), if_neg hnz]
  simp only [hsz]
  rw [if_pos (by norm_num)]
  unfold scale_up
  simp only [hop]
  rw [if_neg (by norm_num)]
  cases hres : env.resize (1 + 1) <;> simp [decisionOfResult]


/-- C1 witness: the amended theorem applied at metrics (50, 50). -/
theorem C1_below_min_forces_scale_up_witness :
    (evaluate_metrics C1wEnv ⟨⟨20, 80⟩, ⟨20, 80⟩⟩ ⟨2, 10⟩ false).1.scaling_event
      = some "SCALE_UP" :=
  C1_below_min_forces_scale_up C1wEnv ⟨⟨20, 80⟩, ⟨20, 80⟩⟩ false 50 50 rfl
    (by norm_num) (by norm_num) (by norm_num) rfl rfl


/-- C4 counterexample: schedule active, valid non-zero metrics, size 5
within limits 2..10, and cpu 10 below cpu_min 20 (a low-threshold
breach) - yet the engine issues a resize (to 6) and returns a SCALE_UP
event with new_instances differing from previous_instances, because the
high-threshold branch (ram 95 above ram_max 80) is checked first. -/
theorem C4_counterexample :
    ((10 : Rat) < 20 ∧ (0 : Rat) ≤ 10 ∧ (0 : Rat) ≤ 95 ∧ (2 : Int) ≤ 5 ∧ (5 : Int) ≤ 10)
      ∧ (evaluate_metrics C4env ⟨⟨20, 80⟩, ⟨20, 80⟩⟩ ⟨2, 10⟩ true).2 ≠ ([] : List Int)
      ∧ (evaluate_metrics C4env ⟨⟨20, 80⟩, ⟨20, 80⟩⟩ ⟨2, 10⟩ true).1.scaling_event
          = some "SCALE_UP"
      ∧ (evaluate_metrics C4env ⟨⟨20, 80⟩, ⟨20, 80⟩⟩ ⟨2, 10⟩ true).1.new_instances
          ≠ (evaluate_metrics C4env ⟨⟨20, 80⟩, ⟨20, 80⟩⟩ ⟨2, 10⟩ true).1.previous_instances := by
  refine ⟨by norm_num, ?_, ?_, ?_⟩ <;> decide

/-- C4 (amended): when metrics are valid and non-zero, the pool size is
within the scaling limits, NO high-threshold breach holds, a
low-threshold breach holds, and the schedule-active callback returns
true, evaluate_metrics issues no resize and returns no scaling event,
previous_instances equal to new_instances equal to the current size,
success true, and the reason string "Scaling down blocked by active
scheduler" (which carries the spec's phrase "blocked by active
schedule"). -/
theorem C4_schedule_suppresses_scale_down (env : CloudEnv) (th : Thresholds)
    (lim : ScalingLimits) (cpu ram : Rat) (s : Int)
    (hm : env.metrics = .ok (cpu, ram)) (hc : 0 ≤ cpu) (hr : 0 ≤ ram)
    (hnz : ¬(cpu = 0 ∧ ram = 0))
    (hsz : env.evalSize = .ok s) (hmin : lim.min ≤ s) (hmax : s ≤ lim.max)
    (hnothigh : ¬(cpu > th.cpu.max ∨ ram > th.ram.max))
    (hlow : cpu < th.cpu.min ∨ ram < th.ram.min) :
    evaluate_metrics env th lim true =
      ({ scaling_event := none
         scaling_reason := some "Scaling down blocked by active scheduler"
         previous_instances := some s
         new_instances := some s
         success := true }, []) := by
  unfold evaluate_metrics
  simp only [hm]
  rw [if_neg (by push_neg; exact ⟨hc, hr⟩), if_neg hnz]
  simp only [hsz]
  rw [if_neg (by omega), if_neg (by omega), if_neg hnothigh, if_pos hlow]
  simp


/-- C4 witness: the amended suppression theorem applied at cpu 10, ram
50, size 3, thresholds 20..70 / 20..80, limits 2..8. -/
theorem C4_schedule_suppresses_scale_down_witness :
    evaluate_metrics C4wEnv ⟨⟨20, 70⟩, ⟨20, 80⟩⟩ ⟨2, 8⟩ true =
      ({ scaling_event := none
         scaling_reason := some "Scaling down blocked by active scheduler"
         previous_instances := some 3
         new_instances := some 3
         success := true }, []) :=
  C4_schedule_suppresses_scale_down C4wEnv ⟨⟨20, 70⟩, ⟨20, 80⟩⟩ ⟨2, 8⟩ 10 50 3 rfl
    (by norm_num) (by norm_num) (by norm_num) rfl (by norm_num) (by norm_num)
    (by norm_num) (by norm_num)


/-- C7 counterexample: when the resize call inside scale_up raises, the
returned decision does have success false, but its reason is the
threshold-breach reason, which does NOT contain the provider's exception
message - that message is only logged inside scale_up. -/
theorem C7_counterexample :
    (evaluate_metrics C7env ⟨⟨20, 80⟩, ⟨20, 80⟩⟩ ⟨2, 10⟩ false).1.success = false
      ∧ containsSubstr
          ((evaluate_metrics C7env ⟨⟨20, 80⟩, ⟨20, 80⟩⟩ ⟨2, 10⟩ false).1.scaling_reason.getD "")
          "instance pool is being modified" = false := by
  constructor <;> decide

/-- A scale_up cycle whose pool read or resize raises answers with
success False (the exception is caught inside scale_up). -/
theorem scale_up_raises_success (env : CloudEnv) (maxL : Int) (e : String)
    (h : scale_up_raises env maxL e) : (scale_up env maxL).1.success = false := by
  unfold scale_up
  rcases h with h | ⟨t, ht, hlt, hres⟩
  · simp [h]
  · simp only [ht]
    rw [if_neg (by omega)]
    simp [hres]

/-- A scale_down cycle whose pool read or resize raises answers with
success False (the exception is caught inside scale_down), whatever the
caller-supplied reason. -/
theorem scale_down_raises_success (env : CloudEnv) (minL : Int) (reason e : String)
    (h : scale_down_raises env minL e) :
    (scale_down env minL reason).1.success = false := by
  unfold scale_down
  rcases h with h | ⟨t, ht, hgt, hres⟩
  · simp [h]
  · simp only [ht]
    rw [if_neg (by omega)]
    simp [hres]

/-- C7 (amended): no exception raised by a cloud call propagates out of
evaluate_metrics - every failure on the executed path yields a decision
with success false.  The six parts cover every provider call the engine
can make: a metrics-collection failure and a failure of the engine's own
pool-size read each return the error decision, whose reason carries the
exception message; a failure of the pool read or the resize inside
scale_up or scale_down - in any of the four branches that reach them:
below-minimum, above-maximum, high-threshold breach, low-threshold breach
with no active schedule - yields success false while the decision keeps
the bounds/threshold reason computed at the call site (the provider
message is only logged inside scale_up / scale_down). -/
theorem C7_provider_errors_reported (env : CloudEnv) (th : Thresholds)
    (lim : ScalingLimits) (sched : Bool) (e : String) (cpu ram : Rat) (s : Int) :
    (env.metrics = .error e →
        evaluate_metrics env th lim sched = (errorDecision e, []))
      ∧ (env.metrics = .ok (cpu, ram) → 0 ≤ cpu → 0 ≤ ram → ¬(cpu = 0 ∧ ram = 0) →
          env.evalSize = .error e →
          evaluate_metrics env th lim sched = (errorDecision e, []))
      ∧ (env.metrics = .ok (cpu, ram) → 0 ≤ cpu → 0 ≤ ram → ¬(cpu = 0 ∧ ram = 0) →
          env.evalSize = .ok s → s < lim.min →
          scale_up_raises env lim.max e →
          (evaluate_metrics env th lim sched).1.success = false
            ∧ (evaluate_metrics env th lim sched).1.scaling_reason
                = some ("Pool size (" ++ toString s ++ ") below minimum limit ("
                    ++ toString lim.min ++ ")"))
      ∧ (env.metrics = .ok (cpu, ram) → 0 ≤ cpu → 0 ≤ ram → ¬(cpu = 0 ∧ ram = 0) →
          env.evalSize = .ok s → ¬(s < lim.min) → s > lim.max →
          scale_down_raises env lim.min e →
          (evaluate_metrics env th lim sched).1.success = false
            ∧ (evaluate_metrics env th lim sched).1.scaling_reason
                = some ("Current pool size (" ++ toString s
                    ++ ") exceeds the maximum limit (" ++ toString lim.max ++ ")."))
      ∧ (env.metrics = .ok (cpu, ram) → 0 ≤ cpu → 0 ≤ ram → ¬(cpu = 0 ∧ ram = 0) →
          env.evalSize = .ok s → lim.min ≤ s → s ≤ lim.max →
          (cpu > th.cpu.max ∨ ram > th.ram.max) →
          scale_up_raises env lim.max e →
          (evaluate_metrics env th lim sched).1.success = false
            ∧ (evaluate_metrics env th lim sched).1.scaling_reason
                = some ("CPU or RAM exceeded thresholds. CPU " ++ toString cpu
                    ++ "% (max " ++ toString th.cpu.max ++ "%), RAM " ++ toString ram
                    ++ "% (max " ++ toString th.ram.max ++ "%)"))
      ∧ (env.metrics = .ok (cpu, ram) → 0 ≤ cpu → 0 ≤ ram → ¬(cpu = 0 ∧ ram = 0) →
          env.evalSize = .ok s → lim.min ≤ s → s ≤ lim.max →
          ¬(cpu > th.cpu.max ∨ ram > th.ram.max) →
          (cpu < th.cpu.min ∨ ram < th.ram.min) → sched = false →
          scale_down_raises env lim.min e →
          (evaluate_metrics env th lim sched).1.success = false
            ∧ (evaluate_metrics env th lim sched).1.scaling_reason
                = some ("CPU or RAM below thresholds. CPU " ++ toString cpu
                    ++ "% (min " ++ toString th.cpu.min ++ "%), RAM " ++ toString ram
                    ++ "% (min " ++ toString th.ram.min ++ "%)")) := by
  refine ⟨?_, ?_, ?_, ?_, ?_, ?_⟩
  · intro hme
    unfold evaluate_metrics
    simp [hme]
  · intro hm hc hr hnz hse
    unfold evaluate_metrics
    simp only [hm]
    rw [if_neg (by push_neg; exact ⟨hc, hr⟩), if_neg hnz]
    simp [hse]
  · intro hm hc hr hnz hse hlt hraise
    unfold evaluate_metrics
    simp only [hm]
    rw [if_neg (by push_neg; exact ⟨hc, hr⟩), if_neg hnz]
    simp only [hse]
    rw [if_pos hlt]
    constructor
    · simp only [decisionOfResult]
      exact scale_up_raises_success env lim.max e hraise
    · simp [decisionOfResult]
  · intro hm hc hr hnz hse hnlt hgt hraise
    unfold evaluate_metrics
    simp only [hm]
    rw [if_neg (by push_neg; exact ⟨hc, hr⟩), if_neg hnz]
    simp only [hse]
    rw [if_neg hnlt, if_pos hgt]
    constructor
    · simp only [decisionOfResult]
      exact scale_down_raises_success env lim.min _ e hraise
    · simp [decisionOfResult]
  · intro hm hc hr hnz hse hmin hmax hhigh hraise
    unfold evaluate_metrics
    simp only [hm]
    rw [if_neg (by push_neg; exact ⟨hc, hr⟩), if_neg hnz]
    simp only [hse]
    rw [if_neg (by omega), if_neg (by omega), if_pos hhigh]
    constructor
    · simp only [decisionOfResult]
      exact scale_up_raises_success env lim.max e hraise
    · simp [decisionOfResult]
  · intro hm hc hr hnz hse hmin hmax hnothigh hlow hsched hraise
    subst hsched
    unfold evaluate_metrics
    simp only [hm]
    rw [if_neg (by push_neg; exact ⟨hc, hr⟩), if_neg hnz]
    simp only [hse]
    rw [if_neg (by omega), if_neg (by omega), if_neg hnothigh, if_pos hlow]
    simp only [Bool.false_eq_true, if_false]
    constructor
    · simp only [decisionOfResult]
      exact scale_down_raises_success env lim.min _ e hraise
    · simp [decisionOfResult]

/-- C7 witness: the amended theorem applied at a concrete
metrics-collection failure (the error decision carries the message) and
at a concrete resize failure on the low-breach scale_down path (success
false, threshold reason kept). -/
theorem C7_provider_errors_reported_witness :
    evaluate_metrics C7wEnv ⟨⟨20, 70⟩, ⟨20, 80⟩⟩ ⟨2, 8⟩ false
        = (errorDecision "connection timeout", [])
      ∧ ((evaluate_metrics C7wEnv2 ⟨⟨20, 70⟩, ⟨20, 80⟩⟩ ⟨2, 8⟩ false).1.success = false
          ∧ (evaluate_metrics C7wEnv2 ⟨⟨20, 70⟩, ⟨20, 80⟩⟩ ⟨2, 8⟩ false).1.scaling_reason
              = some ("CPU or RAM below thresholds. CPU " ++ toString (10 : Rat)
                  ++ "% (min " ++ toString (20 : Rat) ++ "%), RAM " ++ toString (50 : Rat)
                  ++ "% (min " ++ toString (20 : Rat) ++ "%)")) :=
  ⟨(C7_provider_errors_reported C7wEnv ⟨⟨20, 70⟩, ⟨20, 80⟩⟩ ⟨2, 8⟩ false
      "connection timeout" 0 0 0).1 rfl,
   (C7_provider_errors_reported C7wEnv2 ⟨⟨20, 70⟩, ⟨20, 80⟩⟩ ⟨2, 8⟩ false
      "resize rejected" 10 50 3).2.2.2.2.2 rfl (by norm_num) (by norm_num)
      (by norm_num) rfl (by norm_num) (by norm_num) (by norm_num)
      (Or.inl (by norm_num)) rfl (Or.inr ⟨3, rfl, by norm_num, rfl⟩)⟩

end Autoscaler

namespace TimeUtils

/-- The time ordering is reflexive, as Python's is. -/
theorem Time.leb_refl (t : Time) : t.leb t = true := by
  simp [Time.leb]

/-- C6: for every pair of parseable start/end strings, the window is
inclusive at both parsed boundaries; and the overnight window 22:00-06:00
contains 23:30 and excludes 12:30. -/
theorem C6_window_boundaries_inclusive (s e : String) (st en : Time)
    (hs : parseHHMM s = some st) (he : parseHHMM e = some en) :
    is_time_in_range s e st = true ∧ is_time_in_range s e en = true
      ∧ is_time_in_range "22:00" "06:00" ⟨23, 30, 0⟩ = true
      ∧ is_time_in_range "22:00" "06:00" ⟨12, 30, 0⟩ = false := by
  refine ⟨?_, ?_, by decide, by decide⟩ <;>
    · unfold is_time_in_range
      simp only [hs, he]
      cases h : st.leb en <;> simp [h, Time.leb_refl]

/-- C6 witness: the boundary theorem applied to the overnight window
"22:00" to "06:00". -/
theorem C6_window_boundaries_inclusive_witness :
    is_time_in_range "22:00" "06:00" ⟨22, 0, 0⟩ = true
      ∧ is_time_in_range "22:00" "06:00" ⟨6, 0, 0⟩ = true
      ∧ is_time_in_range "22:00" "06:00" ⟨23, 30, 0⟩ = true
      ∧ is_time_in_range "22:00" "06:00" ⟨12, 30, 0⟩ = false :=
  C6_window_boundaries_inclusive "22:00" "06:00" ⟨22, 0, 0⟩ ⟨6, 0, 0⟩
    (by decide) (by decide)

end TimeUtils

namespace Backend

/-- The nodes table after a processed heartbeat: the found node's row has
status ACTIVE and last_heartbeat refreshed; every other row is
untouched. -/
theorem heartbeatBody_nodes (db : Db) (now node_id : Nat)
    (hb : NodeHeartbeatData) (node : Node) :
    (heartbeatBody db now node_id hb node).1.nodes =
      db.nodes.map (fun n => if n.id == node_id
        then { node with status := NodeStatus.ACTIVE, last_heartbeat := some now }
        else n) := by
  unfold heartbeatBody process_pool_analytics
  dsimp only
  split <;> split <;> rfl

/-- The heartbeat body never touches the stored configurations. -/
theorem heartbeatBody_configs (db : Db) (now node_id : Nat)
    (hb : NodeHeartbeatData) (node : Node) :
    (heartbeatBody db now node_id hb node).1.configs = db.configs := by
  unfold heartbeatBody process_pool_analytics
  dsimp only
  split <;> split <;> rfl

/-- The config_update_needed flag of a heartbeat response is computed
from the stored active configuration's hash and the reported hash alone. -/
theorem heartbeatBody_flag (db : Db) (now node_id : Nat)
    (hb : NodeHeartbeatData) (node : Node) :
    (heartbeatBody db now node_id hb node).2.config_update_needed =
      (match get_node_config db node_id with
       | some c => some c.config_hash != hb.config_hash
       | none => false) := by
  have haux : (heartbeatBody db now node_id hb node).2.config_update_needed =
      (match get_node_config (heartbeatBody db now node_id hb node).1 node_id with
       | some c => some c.config_hash != hb.config_hash
       | none => false) := by
    unfold heartbeatBody
    dsimp only
  have hc : get_node_config (heartbeatBody db now node_id hb node).1 node_id
      = get_node_config db node_id := by
    unfold get_node_config
    rw [heartbeatBody_configs]
  rw [haux, hc]

end Backend

namespace Backend

/-- C2 counterexample: the backend processes a heartbeat whose payload
status is "error", yet the node's lifecycle state afterwards is ACTIVE,
not ERROR - process_heartbeat assigns ACTIVE on every heartbeat and no
code path ever assigns ERROR. -/
theorem C2_counterexample :
    C2hb.status = "error"
      ∧ ((process_heartbeat C2db 100 1 C2hb).toOption.bind
          (fun r => (findNode r.1 1).map Node.status)) = some NodeStatus.ACTIVE
      ∧ NodeStatus.ACTIVE ≠ NodeStatus.ERROR := by
  refine ⟨rfl, by decide, by decide⟩

/-- C2 (amended): processing any heartbeat - whatever the payload status,
"error" included - leaves the node's lifecycle state ACTIVE; the payload
status is only stored in the heartbeat record, and the ERROR state is
never entered by the heartbeat path. -/
theorem C2_heartbeat_sets_active (db : Db) (now node_id : Nat)
    (hb : NodeHeartbeatData) (db' : Db) (resp : HeartbeatResponse) (n : Node)
    (hrun : process_heartbeat db now node_id hb = .ok (db', resp))
    (hn : n ∈ db'.nodes) (hid : n.id = node_id) :
    n.status = NodeStatus.ACTIVE := by
  unfold process_heartbeat at hrun
  cases hf : findNode db node_id with
  | none => simp [hf] at hrun
  | some node =>
      simp only [hf] at hrun
      have hpair : heartbeatBody db now node_id hb node = (db', resp) := by
        injection hrun
      have hnodes : db'.nodes =
          db.nodes.map (fun m => if m.id == node_id
            then { node with status := NodeStatus.ACTIVE, last_heartbeat := some now }
            else m) := by
        have h1 : db' = (heartbeatBody db now node_id hb node).1 := by rw [hpair]
        rw [h1, heartbeatBody_nodes]
      rw [hnodes] at hn
      obtain ⟨m, hm, hmap⟩ := List.mem_map.mp hn
      by_cases hmid : m.id = node_id
      · simp only [hmid, beq_self_eq_true, if_true] at hmap
        rw [← hmap]
      · simp only [beq_iff_eq, hmid, if_false] at hmap
        rw [← hmap] at hid
        exact absurd hid hmid

/-- C2 witness: the amended theorem applied to the concrete
status-"error" heartbeat scenario. -/
theorem C2_heartbeat_sets_active_witness :
    ({ node1 with status := NodeStatus.ACTIVE, last_heartbeat := some 100 } : Node).status
      = NodeStatus.ACTIVE :=
  C2_heartbeat_sets_active C2db 100 1 C2hb C2dbAfter C2resp
    { node1 with status := NodeStatus.ACTIVE, last_heartbeat := some 100 }
    rfl (by decide) rfl

end Backend

namespace Backend

/-- C3: the heartbeat response's config_update_needed flag is true
exactly when a stored active configuration for the node exists whose hash
differs from the hash reported in the heartbeat - a pure comparison of
hashes (the right-hand side mentions config_hash only, never the YAML
content); it is false when the hashes match and false when no
configuration is stored.  The uniqueness hypothesis is the invariant
update_node_config maintains: at most one active configuration per
node. -/
theorem C3_config_drift_iff (db : Db) (now node_id : Nat)
    (hb : NodeHeartbeatData) (db' : Db) (resp : HeartbeatResponse)
    (huniq : ∀ c1 ∈ db.configs, ∀ c2 ∈ db.configs,
      c1.node_id = node_id → c2.node_id = node_id →
      c1.is_active = true → c2.is_active = true → c1 = c2)
    (hrun : process_heartbeat db now node_id hb = .ok (db', resp)) :
    resp.config_update_needed = true ↔
      ∃ c ∈ db.configs, c.node_id = node_id ∧ c.is_active = true
        ∧ some c.config_hash ≠ hb.config_hash := by
  unfold process_heartbeat at hrun
  cases hf : findNode db node_id with
  | none => simp [hf] at hrun
  | some node =>
      simp only [hf] at hrun
      have hpair : heartbeatBody db now node_id hb node = (db', resp) := by
        injection hrun
      have hflag : resp.config_update_needed =
          (match get_node_config db node_id with
           | some c => some c.config_hash != hb.config_hash
           | none => false) := by
        have h2 : resp = (heartbeatBody db now node_id hb node).2 := by rw [hpair]
        rw [h2, heartbeatBody_flag]
      constructor
      · intro htrue
        rw [hflag] at htrue
        cases hg : get_node_config db node_id with
        | none => rw [hg] at htrue; simp at htrue
        | some c =>
            rw [hg] at htrue
            simp only [bne_iff_ne, ne_eq] at htrue
            have hmem := List.mem_of_find?_eq_some hg
            have hprop := List.find?_some hg
            simp only [Bool.and_eq_true, beq_iff_eq] at hprop
            exact ⟨c, hmem, hprop.1, hprop.2, htrue⟩
      · rintro ⟨c, hc, hcid, hcact, hne⟩
        rw [hflag]
        cases hg : get_node_config db node_id with
        | none =>
            exfalso
            have := List.find?_eq_none.mp hg c hc
            simp [hcid, hcact] at this
        | some c' =>
            have hmem := List.mem_of_find?_eq_some hg
            have hprop := List.find?_some hg
            simp only [Bool.and_eq_true, beq_iff_eq] at hprop
            have hcc : c' = c := huniq c' hmem c hc hprop.1 hcid hprop.2 hcact
            subst hcc
            simpa [bne_iff_ne] using hne

/-- C3 witness: the drift theorem applied to the concrete scenario where
the stored active configuration has hash "abc" and the node reports
"old". -/
theorem C3_config_drift_iff_witness :
    C3resp.config_update_needed = true ↔
      ∃ c ∈ C3db.configs, c.node_id = 1 ∧ c.is_active = true
        ∧ some c.config_hash ≠ C3hb.config_hash :=
  C3_config_drift_iff C3db 5 1 C3hb C3dbAfter C3resp (by decide) rfl

end Backend

namespace Backend

/-- C9: on every authenticated node-scoped endpoint - heartbeat, config
fetch, config push - a path node id differing from the authenticated
node's id is rejected with HTTP 403 "Node ID mismatch"; the error result
carries no updated database, so no state change happens under a
mismatched id. -/
theorem C9_node_id_mismatch_rejected (authNode : Node) (node_id : Nat)
    (hb : NodeHeartbeatData) (db : Db) (now : Nat) (yaml_config : String)
    (sha256hex : String → String)
    (hmm : authNode.id ≠ node_id) :
    node_heartbeat authNode node_id hb db now = .error ⟨403, "Node ID mismatch"⟩
      ∧ fetch_node_config authNode node_id db = .error ⟨403, "Node ID mismatch"⟩
      ∧ push_node_config authNode node_id yaml_config sha256hex db
          = .error ⟨403, "Node ID mismatch"⟩ := by
  unfold node_heartbeat fetch_node_config push_node_config
  rw [if_pos hmm, if_pos hmm, if_pos hmm]
  exact ⟨rfl, rfl, rfl⟩

/-- C9 witness: the mismatch theorem applied to the node authenticated as
id 2 addressing node id 1. -/
theorem C9_node_id_mismatch_rejected_witness :
    node_heartbeat authNode2 1 C2hb C2db 0 = .error ⟨403, "Node ID mismatch"⟩
      ∧ fetch_node_config authNode2 1 C2db = .error ⟨403, "Node ID mismatch"⟩
      ∧ push_node_config authNode2 1 "pools: []" testHash C2db
          = .error ⟨403, "Node ID mismatch"⟩ :=
  C9_node_id_mismatch_rejected authNode2 1 C2hb C2db 0 "pools: []" testHash
    (by decide)

/-- The seed of a foldr over Nat.max is a lower bound of the fold. -/
theorem le_foldr_max (b : Nat) (l : List Nat) : b ≤ l.foldr Nat.max b := by
  induction l with
  | nil => exact Nat.le_refl b
  | cons x xs ih => exact le_trans ih (Nat.le_max_right x _)

/-- Every member of the list is bounded by its foldr over Nat.max. -/
theorem mem_le_foldr_max (b x : Nat) (l : List Nat) (hx : x ∈ l) :
    x ≤ l.foldr Nat.max b := by
  induction l with
  | nil => cases hx
  | cons y ys ih =>
      rcases List.mem_cons.mp hx with h | h
      · subst h; exact Nat.le_max_left x _
      · exact le_trans (ih h) (Nat.le_max_right y _)

/-- C10: register_node unconditionally appends one brand-new node row -
INACTIVE, carrying the hash of the freshly supplied API key, with an id
no existing node has - whatever the database already holds, so
re-registering yields a second, distinct identity; no deduplication by
name or region exists.  The node-side guard is auto_register: with
credentials already present it returns success without making any
registration call. -/
theorem C10_registration_never_dedups (db : Db) (req : NodeRegister)
    (api_key : String) (sha256hex : String → String)
    (cred_id : Option Int) (cred_key : Option String) (reg : Option (Nat × String))
    (hcreds : (NodeSide.nodeIdTruthy cred_id && NodeSide.apiKeyTruthy cred_key) = true) :
    (register_node db req api_key sha256hex).1.nodes
        = db.nodes ++
          [{ id := (register_node db req api_key sha256hex).2.node_id
             name := req.name
             region := req.region
             ip_address := req.ip_address
             description := req.description
             status := NodeStatus.INACTIVE
             api_key_hash := some (sha256hex api_key)
             last_heartbeat := none }]
      ∧ (register_node db req api_key sha256hex).2.node_id = nextId db
      ∧ (∀ n ∈ db.nodes, n.id ≠ (register_node db req api_key sha256hex).2.node_id)
      ∧ (register_node (register_node db req api_key sha256hex).1 req api_key sha256hex).2.node_id
          ≠ (register_node db req api_key sha256hex).2.node_id
      ∧ NodeSide.auto_register cred_id cred_key reg = (false, true) := by
  refine ⟨rfl, rfl, ?_, ?_, ?_⟩
  · intro n hn
    have hle : n.id ≤ (db.nodes.map Node.id).foldr Nat.max 0 :=
      mem_le_foldr_max 0 n.id _ (List.mem_map_of_mem Node.id hn)
    show n.id ≠ nextId db
    unfold nextId
    omega
  · show nextId (register_node db req api_key sha256hex).1 ≠ nextId db
    unfold register_node nextId
    dsimp only
    rw [List.map_append, List.foldr_append]
    simp only [List.map, List.foldr, Nat.max_zero]
    have h1 : ((db.nodes.map Node.id).foldr Nat.max 0 + 1)
        ≤ (db.nodes.map Node.id).foldr Nat.max
            ((db.nodes.map Node.id).foldr Nat.max 0 + 1) :=
      le_foldr_max _ _
    omega
  · unfold NodeSide.auto_register
    rw [if_pos hcreds]

/-- C10 witness: with stored credentials (node id 7, key "k") present,
auto_register reports success without a registration call; obtained from
the theorem applied at the concrete database holding node-a. -/
theorem C10_registration_never_dedups_witness :
    NodeSide.auto_register (some 7) (some "k") none = (false, true) :=
  (C10_registration_never_dedups C2db C10req "fresh-key" testHash
    (some 7) (some "k") none (by decide)).2.2.2.2

end Backend

namespace NodeSide

/-- C8 counterexample: applying a configuration string that is not valid
YAML does not fail - update_configuration performs no YAML validation -
and it changes both the on-disk file and the in-memory hash, so the
claim's "malformed-YAML case leaves configuration unchanged" is false. -/
theorem C8_counterexample :
    (update_configuration C8bad .ok demoHash C8st).2 = true
      ∧ (update_configuration C8bad .ok demoHash C8st).1.config_file
          ≠ C8st.config_file
      ∧ (update_configuration C8bad .ok demoHash C8st).1.config_hash
          ≠ C8st.config_hash := by
  refine ⟨rfl, by decide, by decide⟩

/-- C8 (amended): update_configuration validates nothing - any
configuration string, malformed YAML included, is written to the file and
the in-memory hash updated, reporting success.  Applying fails only when
the file write raises; the error is only logged (a False return), the
in-memory hash is left unchanged, and the file is unchanged when opening
itself failed but may be left truncated or partially written when the
write failed after open truncated it. -/
theorem C8_apply_failure_keeps_hash (yaml_config : String)
    (sha256hex : String → String) (st : LocalState) (msg written : String) :
    update_configuration yaml_config .ok sha256hex st
        = ({ config_file := some yaml_config
             config_hash := some (sha256hex yaml_config) }, true)
      ∧ update_configuration yaml_config (.openError msg) sha256hex st = (st, false)
      ∧ update_configuration yaml_config (.writeError msg written) sha256hex st
          = ({ st with config_file := some written }, false) :=
  ⟨rfl, rfl, rfl⟩

end NodeSide
